import Mathlib

/-!
Verification of the CartoonGAN trainer (`train.py`): a shallow embedding of
the `Trainer` class's operations — the diagnostic image export
(`_save_generated_images`), the image pipeline (`get_dataset`), the
pretraining loop (`pretrain_generator`) and the adversarial loss wiring
(`train_gan`) — together with theorems settling the specification's claims
about them.
-/

namespace CartoonGan

/-! ## Python runtime values

`pretrain_generator` writes its loss log with
`f.write(step, '\t', batch_loss + '\n')` (train.py:186).  To settle claims
about that line we embed the small fragment of Python semantics it
exercises: dynamically typed values, `+` on them, and `file.write`. -/

/-- A Python runtime value as it appears in the trainer: an `int` (the step
counter), a numpy float scalar (the batch loss returned by `sess.run`), or a
`str`. -/
inductive PyVal : Type
  | int (n : Int)
  | npFloat (q : ℚ)
  | str (s : String)
deriving DecidableEq, Repr

/-- An exception raised by the embedded Python fragment. -/
inductive PyError : Type
  | typeError (msg : String)
  | valueError (msg : String)
deriving DecidableEq, Repr

/-- Python `+`: two numbers add, two strings concatenate, and mixing a
number with a string raises `TypeError` (this is what numpy's float scalar
does on `batch_loss + '\n'`). -/
def pyAdd : PyVal → PyVal → Except PyError PyVal
  | .int a, .int b => .ok (.int (a + b))
  | .int a, .npFloat b => .ok (.npFloat (a + b))
  | .npFloat a, .int b => .ok (.npFloat (a + b))
  | .npFloat a, .npFloat b => .ok (.npFloat (a + b))
  | .str a, .str b => .ok (.str (a ++ b))
  | _, _ => .error (.typeError "unsupported operand type(s) for +")

/-- Python's `file.write`: accepts exactly one argument, which must be a
string; the file (here, `result/batch_losses.tsv`) is a list of written
strings and a successful write appends to it. -/
def fileWrite (log : List String) (args : List PyVal) : Except PyError (List String) :=
  match args with
  | [.str s] => .ok (log ++ [s])
  | [_] => .error (.typeError "write() argument must be str")
  | _ => .error (.typeError "write() takes exactly one argument")

/-- The loss-log record write of `pretrain_generator` (train.py:185-186):
`f.write(step, '\t', batch_loss + '\n')`.  Python evaluates the argument
expressions left to right — in particular `batch_loss + '\n'` — before the
call, so the embedding first evaluates `pyAdd` on the loss and the newline
and only then performs the (three-argument) `fileWrite`. -/
def writeLossRecord (log : List String) (step : Nat) (loss : ℚ) :
    Except PyError (List String) := do
  let third ← pyAdd (.npFloat loss) (.str "\n")
  fileWrite log [.int step, .str "\t", third]

/-! ## Diagnostic image export: `_save_generated_images` (train.py:78-94)

The function opens a figure, adds one subplot per image at positions
`1..batch_size` in a `num_rows × num_images_per_row` grid, saves, and
closes the figure.  matplotlib's `fig.add_subplot(rows, cols, idx)` raises
`ValueError` when `idx > rows * cols`; an exception propagates out of the
function before `plt.close(fig)` is reached. -/

/-- `num_rows` as computed at train.py:81:
`batch_size // num_images_per_row if batch_size >= num_images_per_row else 1`. -/
def num_rows (batch_size num_images_per_row : Nat) : Nat :=
  if batch_size ≥ num_images_per_row then batch_size / num_images_per_row else 1

/-- The subplot loop `for i in range(batch_size): fig.add_subplot(num_rows,
num_images_per_row, i + 1)`: runs the calls in order and raises at the first
position `i + 1` exceeding the grid capacity `rc = rows * cols`; the error
value is that failing position. -/
def subplotCalls (rc : Nat) : List Nat → Except Nat Unit
  | [] => .ok ()
  | i :: rest => if rc < i + 1 then .error (i + 1) else subplotCalls rc rest

/-- Outcome of a call to `_save_generated_images` on a batch of
`batch_size` images: the Python return value (`.ok ()` models returning
`None`; `.error p` models the `ValueError` from the subplot call at
position `p` propagating to the caller) paired with the number of figure
handles left open on exit — `plt.close(fig)` at train.py:94 runs only when
the loop completes. -/
def save_generated_images (batch_size num_images_per_row : Nat) :
    Except Nat Unit × Nat :=
  let rows := num_rows batch_size num_images_per_row
  match subplotCalls (rows * num_images_per_row) (List.range batch_size) with
  | .error p => (.error p, 1)
  | .ok () => (.ok (), 0)

/-! ## Reporting cadence and the pretraining loop (train.py:166-186)

Each loop iteration runs one optimizer step; at a reporting step (Python
truthiness: `if step and step % pretrain_reporting_steps == 0`) it saves
the generator checkpoint, exports a diagnostic grid, logs, and then
executes the loss-log write — whose failure terminates the run. -/

/-- The reporting guard `if step and step % self.pretrain_reporting_steps
== 0` (train.py:170): `step` is truthy iff nonzero. -/
def reportAt (step reportingSteps : Nat) : Bool :=
  decide (step ≠ 0) && decide (step % reportingSteps = 0)

/-- An observable event of the pretraining loop. -/
inductive TrainEvent : Type
  | ckptSave (step : Nat)
  | imageExport (step : Nat)
deriving DecidableEq, Repr

/-- One pass of the pretraining loop starting at `step` with `remaining`
iterations left, threading the loss-log file.  At a reporting step the
checkpoint save (train.py:175) and diagnostic export (train.py:176-179)
happen first; then the loss-log write runs and, if it raises, the run
terminates there (the `Bool` in the result records whether it crashed).
`loss` gives the batch loss observed at each step. -/
def pretrainLoopGo (reportingSteps : Nat) (loss : Nat → ℚ) :
    Nat → Nat → List String → List TrainEvent × List String × Bool
  | _, 0, log => ([], log, false)
  | step, remaining + 1, log =>
    if reportAt step reportingSteps then
      match writeLossRecord log step (loss step) with
      | .error _ =>
        ([.ckptSave step, .imageExport step], log, true)
      | .ok log2 =>
        let rest := pretrainLoopGo reportingSteps loss (step + 1) remaining log2
        (.ckptSave step :: .imageExport step :: rest.1, rest.2)
    else
      pretrainLoopGo reportingSteps loss (step + 1) remaining log

/-- The whole pretraining loop `for step in range(pretrain_num_steps)`
(train.py:166), started on an empty loss log. -/
def pretrainLoopTrace (numSteps reportingSteps : Nat) (loss : Nat → ℚ) :
    List TrainEvent × List String × Bool :=
  pretrainLoopGo reportingSteps loss 0 numSteps []

/-! ## Image pipeline: `get_dataset` (train.py:96-110)

`image_processing` decodes a file as a 3-channel image
(`tf.image.decode_jpeg(x, channels=3)`), resizes it to
`[input_size, input_size]` (`tf.image.resize_images`, bilinear with
`align_corners=False`) and normalizes `img / 127.5 - 1`.  The dataset maps
this over the file list, shuffles with a buffer of 10000, repeats forever
and batches; shuffling and repetition only reorder and repeat elements, so
they are embedded as an arbitrary reindexing `pick` into the file list. -/

/-- A JPEG file on disk, as the decoder sees it: spatial dimensions and an
8-bit value per (row, column, channel).  Out-of-range coordinates are given
a value too, which keeps the pixel accessor total. -/
structure JpegFile : Type where
  height : Nat
  width : Nat
  bytes : Nat → Nat → Nat → Fin 256

/-- An image tensor: dimensions, channel count and a rational value per
(row, column, channel). -/
structure ImageT : Type where
  height : Nat
  width : Nat
  channels : Nat
  pix : Nat → Nat → Nat → ℚ

/-- `tf.image.decode_jpeg(x, channels=3)`: the decoded tensor always has 3
channels and carries the file's 8-bit values. -/
def decode_jpeg (f : JpegFile) : ImageT :=
  { height := f.height, width := f.width, channels := 3,
    pix := fun y x c => ((f.bytes y x c : Nat) : ℚ) }

/-- Linear interpolation `a + t * (b - a)`, the elementary step of
bilinear resizing. -/
def lerp (t a b : ℚ) : ℚ := a + t * (b - a)

/-- The source coordinate that output index `n` of a resize to `outN`
samples from, under `align_corners=False`: `n * (inN / outN)`. -/
def inCoord (outN inN n : Nat) : ℚ := (n : ℚ) * ((inN : ℚ) / (outN : ℚ))

/-- One output pixel of bilinear resizing: interpolate between the source
rows `⌊inY⌋` and `⌊inY⌋ + 1` (clamped to the last row) with weight
`Int.fract inY = inY - ⌊inY⌋`, and likewise along x. -/
def bilinearAt (img : ImageT) (outH outW y x c : Nat) : ℚ :=
  lerp (Int.fract (inCoord outH img.height y))
    (lerp (Int.fract (inCoord outW img.width x))
      (img.pix (min (⌊inCoord outH img.height y⌋.toNat) (img.height - 1))
        (min (⌊inCoord outW img.width x⌋.toNat) (img.width - 1)) c)
      (img.pix (min (⌊inCoord outH img.height y⌋.toNat) (img.height - 1))
        (min (⌊inCoord outW img.width x⌋.toNat + 1) (img.width - 1)) c))
    (lerp (Int.fract (inCoord outW img.width x))
      (img.pix (min (⌊inCoord outH img.height y⌋.toNat + 1) (img.height - 1))
        (min (⌊inCoord outW img.width x⌋.toNat) (img.width - 1)) c)
      (img.pix (min (⌊inCoord outH img.height y⌋.toNat + 1) (img.height - 1))
        (min (⌊inCoord outW img.width x⌋.toNat + 1) (img.width - 1)) c))

/-- `tf.image.resize_images(x, [outH, outW])` with the TF1 defaults
(bilinear, `align_corners=False`). -/
def resize_images (img : ImageT) (outH outW : Nat) : ImageT :=
  { height := outH, width := outW, channels := img.channels,
    pix := fun y x c => bilinearAt img outH outW y x c }

/-- The per-file `image_processing` closure of `get_dataset`
(train.py:103-108): decode as 3 channels, resize to the configured square
size, normalize by `/ 127.5 - 1`. -/
def image_processing (input_size : Nat) (f : JpegFile) : ImageT :=
  let resized := resize_images (decode_jpeg f) input_size input_size
  { height := input_size, width := input_size, channels := resized.channels,
    pix := fun y x c => resized.pix y x c / 127.5 - 1 }

/-- Batch `b` of the pipeline
`ds.map(image_processing).shuffle(10000).repeat().batch(batch_size)`: the
stream is infinite (`repeat`), so every batch has exactly `batch_size`
elements; `pick` is the reindexing induced by shuffling and repetition, so
element `j` of batch `b` is the processed image of file
`pick (b * batch_size + j)`. -/
def get_dataset_batch (files : List JpegFile) (input_size batch_size : Nat)
    (pick : Nat → Fin files.length) (b : Nat) : List ImageT :=
  (List.range batch_size).map fun j =>
    image_processing input_size (files.get (pick (b * batch_size + j)))

/-! ## Sampling phase of `pretrain_generator` (train.py:156-164)

Before training, `int(self.sample_size / self.batch_size)` batches are
drawn from the dataset and concatenated; the concatenation is clipped to
`[0, 1]` for display and exported once as the baseline grid. -/

/-- The sampled batches: `for _ in range(int(sample_size / batch_size)):
real_batches.append(sess.run(input_images))`, where `int(S / B)` truncates
the quotient, i.e. Nat division. -/
def drawSampleBatches (sample_size batch_size : Nat)
    (batchAt : Nat → List ImageT) : List (List ImageT) :=
  (List.range (sample_size / batch_size)).map batchAt

/-- `np.clip(x, 0, 1)`, the clip-for-display transform applied to the
concatenated sample (train.py:162). -/
def clip01 (q : ℚ) : ℚ := max 0 (min q 1)

/-- `np.concatenate(batches, axis=0)`: concatenates along the batch axis,
but raises `ValueError` when given an empty sequence of arrays. -/
def npConcatenate (batches : List (List ImageT)) : Except PyError (List ImageT) :=
  match batches with
  | [] => .error (.valueError "need at least one array to concatenate")
  | _ => .ok batches.flatten

/-- The sampling phase of `pretrain_generator`: draw the fixed sample
batches, then concatenate them for the baseline export. -/
def pretrainSamplePhase (sample_size batch_size : Nat)
    (batchAt : Nat → List ImageT) : Except PyError (List ImageT) :=
  npConcatenate (drawSampleBatches sample_size batch_size batchAt)

/-- `pretrain_generator` from the sampling phase onward: the sampling phase
runs first and only if it succeeds does the training loop start
(train.py:156-186).  The result carries the loop's events, final loss log
and crash flag. -/
def pretrainRun (sample_size batch_size numSteps reportingSteps : Nat)
    (batchAt : Nat → List ImageT) (loss : Nat → ℚ) :
    Except PyError (List TrainEvent × List String × Bool) := do
  let _ ← pretrainSamplePhase sample_size batch_size batchAt
  pure (pretrainLoopTrace numSteps reportingSteps loss)

/-! ## Checkpoint restore in `pretrain_generator` (train.py:149-154) -/

/-- A store of named model variables (TensorFlow variables by name). -/
abbrev VarStore := List (String × ℚ)

/-- What the restore block logs. -/
inductive RestoreLog : Type
  | loadedOk (name : String)
  | notFound (name : String)
deriving DecidableEq, Repr

/-- Modelled from the spec: `Generator.load` lives in `generator.py`, which
is not under `src/`.  Per the spec, attempting to restore a checkpoint that
is not present fails with the error the caller's `except ValueError`
handler is written for, and a successful load installs the saved parameter
values. -/
def generator_load (saved : Option VarStore) : Except PyError VarStore :=
  match saved with
  | some p => .ok p
  | none => .error (.valueError "checkpoints not found")

/-- The `try: g.load(...) except ValueError:` block of `pretrain_generator`
(train.py:150-154): a `ValueError` is caught locally, logged as
informational, and training continues with the freshly initialized
parameters; any other exception would propagate. -/
def pretrainRestore (saved : Option VarStore) (initialized : VarStore)
    (name : String) : Except PyError (VarStore × RestoreLog) :=
  match generator_load saved with
  | .ok p => .ok (p, .loadedOk name)
  | .error (.valueError _) => .ok (initialized, .notFound name)
  | .error e => .error e

/-! ## Optimizer frame: `opt.minimize(content_loss, var_list=g.to_save_vars)`
(train.py:139-140)

`tf.train.Optimizer.minimize(loss, var_list)` computes and applies updates
for exactly the variables in `var_list`; every variable outside it is left
untouched.  The update rule itself (Adam) is irrelevant to the frame claim
and is abstracted as `upd`. -/

/-- One applied training step of `opt.minimize(loss, var_list)`: each
variable in `var_list` receives an optimizer update, every other variable
keeps its value. -/
def minimizeStep (var_list : List String) (upd : String → ℚ → ℚ)
    (store : VarStore) : VarStore :=
  store.map fun p => if p.1 ∈ var_list then (p.1, upd p.1 p.2) else p

/-- `k` iterations of the pretraining `train_op`, whose `var_list` is
`g.to_save_vars`; the update rule is step-indexed because Adam's moment
estimates evolve between steps. -/
def iterateTrainOp (g_to_save_vars : List String)
    (upd : Nat → String → ℚ → ℚ) : Nat → VarStore → VarStore
  | 0, store => store
  | k + 1, store =>
    iterateTrainOp g_to_save_vars upd k
      (minimizeStep g_to_save_vars (upd k) store)

/-- Reading a variable's current value from the store by name. -/
def varValue (n : String) : VarStore → Option ℚ
  | [] => none
  | (a, b) :: t => if n = a then some b else varValue n t

/-! ## Adversarial losses: `train_gan` (train.py:204-227)

The loss graph is embedded over an abstract batch type: the generator,
discriminator and frozen VGG are functions, and the per-logit sigmoid cross
entropy `sce label logit` (transcendental in the runtime) is abstract. -/

/-- `tf.reduce_mean` over the flattened entries of a tensor. -/
def reduce_mean (l : List ℚ) : ℚ := l.sum / l.length

/-- `tf.reduce_mean(tf.abs(u - v))`, elementwise over two equally shaped
tensors. -/
def meanAbsDiff (u v : List ℚ) : ℚ :=
  reduce_mean (List.zipWith (fun a b => |a - b|) u v)

/-- The computation graph `train_gan` builds: inputs from the three dataset
streams, the generator `g`, the discriminator `d` (shared weights across
its three invocations), the frozen extractor `vgg`, and the per-logit
sigmoid cross entropy `sce label logit`. -/
structure GanGraph (α : Type) : Type where
  g : α → α
  d : α → List ℚ
  vgg : α → List ℚ
  sce : ℚ → ℚ → ℚ
  input_a : α
  input_b : α
  input_b_smooth : α

/-- `generated_b = g(input_a)` (train.py:206). -/
def generated_b {α : Type} (G : GanGraph α) : α := G.g G.input_a

/-- `content_loss = tf.reduce_mean(tf.abs(v_real_out - v_fake_out))` with
`v_real_out = vgg.build_graph(input_a)` and
`v_fake_out = vgg.build_graph(generated_b)` (train.py:215-218). -/
def content_loss {α : Type} (G : GanGraph α) : ℚ :=
  meanAbsDiff (G.vgg G.input_a) (G.vgg (generated_b G))

/-- `d_loss = d_real_loss + d_fake_loss + d_smooth_loss` (train.py:221-224):
real target images against label 1, generated and smoothed images against
label 0. -/
def d_loss {α : Type} (G : GanGraph α) : ℚ :=
  reduce_mean ((G.d G.input_b).map (G.sce 1)) +
    reduce_mean ((G.d (generated_b G)).map (G.sce 0)) +
    reduce_mean ((G.d G.input_b_smooth).map (G.sce 0))

/-- `g_adversarial_loss = tf.reduce_mean(tf.losses.sigmoid_cross_entropy(
tf.ones_like(d_fake_out), d_fake_out))` with
`d_fake_out = d.build_graph(generated_b, reuse=True)` (train.py:211,226). -/
def g_adversarial_loss {α : Type} (G : GanGraph α) : ℚ :=
  reduce_mean ((G.d (generated_b G)).map (G.sce 1))

/-- `g_loss = g_adversarial_loss + 10 * content_loss` (train.py:227). -/
def g_loss {α : Type} (G : GanGraph α) : ℚ :=
  g_adversarial_loss G + 10 * content_loss G

/-- A concrete one-pixel JPEG file, used to exercise the pipeline on a
closed input. -/
def testJpeg : JpegFile := { height := 1, width := 1, bytes := fun _ _ _ => 0 }

/-! ## Theorems -/

theorem subplotCalls_range' (n : Nat) : ∀ s rc : Nat, s ≤ rc →
    subplotCalls rc (List.range' s n) =
      if s + n ≤ rc then Except.ok () else Except.error (rc + 1) := by
  induction n with
  | zero =>
    intro s rc hs
    show Except.ok () = _
    rw [if_pos (by omega)]
  | succ n ih =>
    intro s rc hs
    show subplotCalls rc (s :: List.range' (s + 1) n) = _
    simp only [subplotCalls]
    by_cases h : rc < s + 1
    · rw [if_pos h, if_neg (by omega)]
      have hrc : s = rc := by omega
      rw [hrc]
    · rw [if_neg h, ih (s + 1) rc (by omega)]
      have he : (s + 1 + n ≤ rc) ↔ (s + (n + 1) ≤ rc) := by omega
      simp only [he]

theorem save_generated_images_eq (B : Nat) :
    save_generated_images B 8 =
      if B ≤ num_rows B 8 * 8 then (Except.ok (), 0)
      else (Except.error (num_rows B 8 * 8 + 1), 1) := by
  simp only [save_generated_images]
  rw [List.range_eq_range', subplotCalls_range' B 0 (num_rows B 8 * 8) (Nat.zero_le _)]
  simp only [Nat.zero_add]
  by_cases h : B ≤ num_rows B 8 * 8
  · rw [if_pos h, if_pos h]
  · rw [if_neg h, if_neg h]

theorem le_num_rows_mul_iff (B : Nat) :
    B ≤ num_rows B 8 * 8 ↔ B ≤ 8 ∨ B % 8 = 0 := by
  unfold num_rows
  by_cases h8 : B ≥ 8
  · rw [if_pos h8]; omega
  · rw [if_neg h8]; omega

/-- Claim C8: for batch sizes 1, 7, 8 and 16, `_save_generated_images`
returns no value (Python `None`, embedded as `Except.ok ()`) and closes the
figure it created before returning, so no open figure handle remains after
the call. -/
theorem save_generated_images_no_leak_small_batches :
    save_generated_images 1 8 = (Except.ok (), 0) ∧
    save_generated_images 7 8 = (Except.ok (), 0) ∧
    save_generated_images 8 8 = (Except.ok (), 0) ∧
    save_generated_images 16 8 = (Except.ok (), 0) :=
  ⟨rfl, rfl, rfl, rfl⟩

/-- Claim C9: for every batch size `B` with `9 ≤ B ≤ 15`,
`_save_generated_images` computes `num_rows = B // 8 = 1`, so the subplot
call at position 9 exceeds the `1 × 8` grid and raises; the exception
propagates and `plt.close` is never reached, leaving one open figure — and
in general the call leaks no figure exactly when `B ≤ 8` or `B` is a
multiple of 8. -/
theorem save_generated_images_leak_characterization :
    (∀ B : Nat, 9 ≤ B → B ≤ 15 →
      num_rows B 8 = 1 ∧ save_generated_images B 8 = (Except.error 9, 1)) ∧
    (∀ B : Nat, (save_generated_images B 8).2 = 0 ↔ B ≤ 8 ∨ B % 8 = 0) := by
  constructor
  · intro B h9 h15
    interval_cases B <;> exact ⟨rfl, rfl⟩
  · intro B
    rw [save_generated_images_eq]
    by_cases h : B ≤ num_rows B 8 * 8
    · rw [if_pos h]
      exact iff_of_true rfl ((le_num_rows_mul_iff B).mp h)
    · rw [if_neg h]
      exact iff_of_false (by simp) (fun hc => h ((le_num_rows_mul_iff B).mpr hc))

theorem save_generated_images_leak_characterization_witness :
    (num_rows 9 8 = 1 ∧ save_generated_images 9 8 = (Except.error 9, 1)) ∧
    ((save_generated_images 16 8).2 = 0 ↔ 16 ≤ 8 ∨ 16 % 8 = 0) :=
  ⟨save_generated_images_leak_characterization.1 9 (by decide) (by decide),
    save_generated_images_leak_characterization.2 16⟩

/-- Claim C1 (defect evidence): the loss-log write of `pretrain_generator`
(train.py:186), `f.write(step, '\t', batch_loss + '\n')`, evaluates
`batch_loss + '\n'` — a float plus a string — and therefore raises
`TypeError` for every step and loss, appending nothing; consequently in the
toy scenario (`pretrain_num_steps = 4`, `pretrain_reporting_steps = 2`) the
loss log ends up empty instead of containing one well-formed
`"<step>\t<loss>\n"` line. -/
theorem writeLossRecord_raises_type_error :
    ∀ (log : List String) (step : Nat) (loss : ℚ) (lossAt : Nat → ℚ),
      writeLossRecord log step loss =
        .error (.typeError "unsupported operand type(s) for +") ∧
      (pretrainLoopTrace 4 2 lossAt).2.1 = [] :=
  fun _ _ _ _ => ⟨rfl, rfl⟩

/-- Claim C2: with `pretrain_num_steps = 4` and
`pretrain_reporting_steps = 2`, the reporting guard holds at step 2 only
among steps 0..3, and the loop performs exactly one checkpoint save and
exactly one diagnostic image export, both at step 2 (the one-off baseline
grid exported before the loop is a separate, pre-training export). -/
theorem pretrain_toy_single_report :
    ∀ lossAt : Nat → ℚ,
      (List.range 4).filter (fun s => reportAt s 2) = [2] ∧
      (pretrainLoopTrace 4 2 lossAt).1 =
        [.ckptSave 2, .imageExport 2] :=
  fun _ => ⟨rfl, rfl⟩

/-- Claim C3: when no checkpoint named `pretrain_generator_name` is
present, the restore attempt of `pretrain_generator` fails with
`ValueError`, the failure is caught locally by the `except ValueError`
handler and logged, nothing propagates, and training proceeds with the
freshly initialized parameters. -/
theorem pretrain_restore_missing_checkpoint :
    ∀ (initialized : VarStore) (name : String),
      generator_load none = .error (.valueError "checkpoints not found") ∧
      pretrainRestore none initialized name = .ok (initialized, .notFound name) :=
  fun _ _ => ⟨rfl, rfl⟩

/-- Claim C5: in `train_gan`, the generator's total loss equals its
adversarial loss plus exactly 10 times the content loss, where the
adversarial loss is the mean sigmoid cross entropy of the discriminator's
output on generated images against label 1, and the content loss is the
mean absolute difference between the frozen extractor's embeddings of the
source images and of the generated images. -/
theorem g_loss_decomposition :
    ∀ (α : Type) (G : GanGraph α),
      g_loss G = g_adversarial_loss G + 10 * content_loss G ∧
      g_adversarial_loss G = reduce_mean ((G.d (G.g G.input_a)).map (G.sce 1)) ∧
      content_loss G = reduce_mean (List.zipWith (fun a b => |a - b|)
        (G.vgg G.input_a) (G.vgg (G.g G.input_a))) :=
  fun _ _ => ⟨rfl, rfl, rfl⟩

theorem lerp_mem (t a b lo hi : ℚ) (ht0 : 0 ≤ t) (ht1 : t ≤ 1)
    (ha0 : lo ≤ a) (ha1 : a ≤ hi) (hb0 : lo ≤ b) (hb1 : b ≤ hi) :
    lo ≤ lerp t a b ∧ lerp t a b ≤ hi := by
  unfold lerp
  constructor
  · nlinarith [mul_nonneg ht0 (sub_nonneg.2 hb0),
      mul_nonneg (sub_nonneg.2 ht1) (sub_nonneg.2 ha0)]
  · nlinarith [mul_nonneg ht0 (sub_nonneg.2 hb1),
      mul_nonneg (sub_nonneg.2 ht1) (sub_nonneg.2 ha1)]

theorem bilinearAt_mem (img : ImageT) (lo hi : ℚ)
    (h : ∀ y x c, lo ≤ img.pix y x c ∧ img.pix y x c ≤ hi)
    (outH outW y x c : Nat) :
    lo ≤ bilinearAt img outH outW y x c ∧
      bilinearAt img outH outW y x c ≤ hi := by
  unfold bilinearAt
  have hdy0 := Int.fract_nonneg (inCoord outH img.height y)
  have hdy1 := le_of_lt (Int.fract_lt_one (inCoord outH img.height y))
  have hdx0 := Int.fract_nonneg (inCoord outW img.width x)
  have hdx1 := le_of_lt (Int.fract_lt_one (inCoord outW img.width x))
  have htop := lerp_mem (Int.fract (inCoord outW img.width x))
    (img.pix (min (⌊inCoord outH img.height y⌋.toNat) (img.height - 1))
      (min (⌊inCoord outW img.width x⌋.toNat) (img.width - 1)) c)
    (img.pix (min (⌊inCoord outH img.height y⌋.toNat) (img.height - 1))
      (min (⌊inCoord outW img.width x⌋.toNat + 1) (img.width - 1)) c)
    lo hi hdx0 hdx1 (h _ _ _).1 (h _ _ _).2 (h _ _ _).1 (h _ _ _).2
  have hbot := lerp_mem (Int.fract (inCoord outW img.width x))
    (img.pix (min (⌊inCoord outH img.height y⌋.toNat + 1) (img.height - 1))
      (min (⌊inCoord outW img.width x⌋.toNat) (img.width - 1)) c)
    (img.pix (min (⌊inCoord outH img.height y⌋.toNat + 1) (img.height - 1))
      (min (⌊inCoord outW img.width x⌋.toNat + 1) (img.width - 1)) c)
    lo hi hdx0 hdx1 (h _ _ _).1 (h _ _ _).2 (h _ _ _).1 (h _ _ _).2
  exact lerp_mem _ _ _ lo hi hdy0 hdy1 htop.1 htop.2 hbot.1 hbot.2

theorem decode_jpeg_pix_mem (f : JpegFile) (y x c : Nat) :
    0 ≤ (decode_jpeg f).pix y x c ∧ (decode_jpeg f).pix y x c ≤ 255 := by
  have hlt : (f.bytes y x c : Nat) < 256 := (f.bytes y x c).isLt
  constructor
  · show (0 : ℚ) ≤ ((f.bytes y x c : Nat) : ℚ)
    positivity
  · show ((f.bytes y x c : Nat) : ℚ) ≤ 255
    exact_mod_cast Nat.le_of_lt_succ hlt

theorem normalize_mem (q : ℚ) (h0 : 0 ≤ q) (h1 : q ≤ 255) :
    -1 ≤ q / 127.5 - 1 ∧ q / 127.5 - 1 ≤ 1 := by
  have hpos : (0 : ℚ) < 127.5 := by norm_num
  constructor
  · have hq : 0 ≤ q / 127.5 := div_nonneg h0 (le_of_lt hpos)
    linarith
  · have hq : q / 127.5 ≤ 2 := by
      rw [div_le_iff₀ hpos]; linarith
    linarith

theorem image_processing_pix_mem (input_size : Nat) (f : JpegFile) (y x c : Nat) :
    -1 ≤ (image_processing input_size f).pix y x c ∧
      (image_processing input_size f).pix y x c ≤ 1 := by
  have hb := bilinearAt_mem (decode_jpeg f) 0 255
    (fun y x c => decode_jpeg_pix_mem f y x c) input_size input_size y x c
  exact normalize_mem _ hb.1 hb.2

theorem get_dataset_batch_length (files : List JpegFile)
    (input_size batch_size : Nat) (pick : Nat → Fin files.length) (b : Nat) :
    (get_dataset_batch files input_size batch_size pick b).length = batch_size := by
  simp [get_dataset_batch]

/-- Claim C6: every image tensor produced by `get_dataset` has 3 channels,
is resized to the configured square input size, and has every pixel value
in `[-1, 1]` (each decoded 8-bit value is mapped through bilinear resizing,
which stays in `[0, 255]`, and then `v / 127.5 - 1`), and the batches have
exactly `batch_size` images each. -/
theorem get_dataset_element_invariant :
    ∀ (files : List JpegFile) (input_size batch_size : Nat)
      (pick : Nat → Fin files.length) (b : Nat) (img : ImageT) (y x c : Nat),
      img ∈ get_dataset_batch files input_size batch_size pick b →
      (get_dataset_batch files input_size batch_size pick b).length = batch_size ∧
      img.height = input_size ∧ img.width = input_size ∧ img.channels = 3 ∧
      -1 ≤ img.pix y x c ∧ img.pix y x c ≤ 1 := by
  intro files input_size batch_size pick b img y x c hmem
  refine ⟨get_dataset_batch_length files input_size batch_size pick b, ?_⟩
  obtain ⟨j, _, rfl⟩ := List.mem_map.1 hmem
  exact ⟨rfl, rfl, rfl, (image_processing_pix_mem _ _ _ _ _).1,
    (image_processing_pix_mem _ _ _ _ _).2⟩

theorem get_dataset_element_invariant_witness :
    (get_dataset_batch [testJpeg] 1 1 (fun _ => ⟨0, by decide⟩) 0).length = 1 ∧
    (image_processing 1 testJpeg).height = 1 ∧
    (image_processing 1 testJpeg).width = 1 ∧
    (image_processing 1 testJpeg).channels = 3 ∧
    -1 ≤ (image_processing 1 testJpeg).pix 0 0 0 ∧
    (image_processing 1 testJpeg).pix 0 0 0 ≤ 1 :=
  get_dataset_element_invariant [testJpeg] 1 1 (fun _ => ⟨0, by decide⟩) 0
    (image_processing 1 testJpeg) 0 0 0
    (by
      have h : get_dataset_batch [testJpeg] 1 1 (fun _ => ⟨0, by decide⟩) 0 =
          [image_processing 1 testJpeg] := rfl
      rw [h]
      exact List.mem_singleton.mpr rfl)

theorem clip01_mem (q : ℚ) : 0 ≤ clip01 q ∧ clip01 q ≤ 1 := by
  unfold clip01
  exact ⟨le_max_left 0 _, max_le (by norm_num) (min_le_right q 1)⟩

theorem sum_map_length_const {α : Type} (l : List α) (f : α → Nat) (B : Nat)
    (h : ∀ a ∈ l, f a = B) : (l.map f).sum = l.length * B := by
  induction l with
  | nil => simp
  | cons a t ih =>
    rw [List.map_cons, List.sum_cons, ih (fun x hx => h x (List.mem_cons_of_mem a hx)),
      h a (List.mem_cons_self a t), List.length_cons]
    ring

/-- Claim C4: for every batch size `B` and sample size `S` with
`0 < B ≤ S`, `pretrain_generator` draws exactly `⌊S / B⌋` fixed sample
batches before training, their concatenation contains exactly
`B * ⌊S / B⌋` images, every pixel of those images lies in `[-1, 1]` before
clipping, and every pixel of the exported baseline grid lies in `[0, 1]`
after the clip-for-display transform `np.clip(·, 0, 1)`. -/
theorem pretrain_sample_batches_spec :
    ∀ (files : List JpegFile) (input_size S B : Nat) (pick : Nat → Fin files.length)
      (img : ImageT) (y x c : Nat),
      0 < B → B ≤ S →
      img ∈ (drawSampleBatches S B (get_dataset_batch files input_size B pick)).flatten →
      (drawSampleBatches S B (get_dataset_batch files input_size B pick)).length = S / B ∧
      (drawSampleBatches S B (get_dataset_batch files input_size B pick)).flatten.length
        = B * (S / B) ∧
      (-1 ≤ img.pix y x c ∧ img.pix y x c ≤ 1) ∧
      (0 ≤ clip01 (img.pix y x c) ∧ clip01 (img.pix y x c) ≤ 1) := by
  intro files input_size S B pick img y x c hB hBS hmem
  refine ⟨by simp [drawSampleBatches], ?_, ?_, clip01_mem _⟩
  · rw [List.length_flatten]
    unfold drawSampleBatches
    rw [List.map_map]
    rw [sum_map_length_const (List.range (S / B))
      (List.length ∘ get_dataset_batch files input_size B pick) B
      (fun a _ => get_dataset_batch_length files input_size B pick a)]
    rw [List.length_range]
    ring
  · obtain ⟨l, hl, hml⟩ := List.mem_flatten.1 hmem
    unfold drawSampleBatches at hl
    obtain ⟨i, _, rfl⟩ := List.mem_map.1 hl
    obtain ⟨j, _, rfl⟩ := List.mem_map.1 hml
    exact image_processing_pix_mem _ _ _ _ _

theorem pretrain_sample_batches_spec_witness :
    (drawSampleBatches 2 1
      (get_dataset_batch [testJpeg] 1 1 (fun _ => ⟨0, by decide⟩))).length = 2 / 1 ∧
    (drawSampleBatches 2 1
      (get_dataset_batch [testJpeg] 1 1 (fun _ => ⟨0, by decide⟩))).flatten.length
      = 1 * (2 / 1) ∧
    (-1 ≤ (image_processing 1 testJpeg).pix 0 0 0 ∧
      (image_processing 1 testJpeg).pix 0 0 0 ≤ 1) ∧
    (0 ≤ clip01 ((image_processing 1 testJpeg).pix 0 0 0) ∧
      clip01 ((image_processing 1 testJpeg).pix 0 0 0) ≤ 1) :=
  pretrain_sample_batches_spec [testJpeg] 1 2 1 (fun _ => ⟨0, by decide⟩)
    (image_processing 1 testJpeg) 0 0 0 (by decide) (by decide)
    (by
      have h : (drawSampleBatches 2 1
          (get_dataset_batch [testJpeg] 1 1 (fun _ => ⟨0, by decide⟩))).flatten =
          [image_processing 1 testJpeg, image_processing 1 testJpeg] := rfl
      rw [h]
      exact List.mem_cons_self _ _)

/-- Claim C10: if `sample_size < batch_size`, `pretrain_generator` draws
`int(sample_size / batch_size) = 0` sample batches, so `np.concatenate` is
called on an empty list and raises `ValueError` before any training step
executes; `sample_size ≥ batch_size` is an unstated precondition. -/
theorem pretrain_sample_size_precondition :
    ∀ (S B numSteps reportingSteps : Nat) (batchAt : Nat → List ImageT)
      (loss : Nat → ℚ),
      S < B →
      S / B = 0 ∧
      drawSampleBatches S B batchAt = [] ∧
      pretrainSamplePhase S B batchAt =
        .error (.valueError "need at least one array to concatenate") ∧
      pretrainRun S B numSteps reportingSteps batchAt loss =
        .error (.valueError "need at least one array to concatenate") := by
  intro S B ns rs batchAt loss h
  have hdiv : S / B = 0 := Nat.div_eq_of_lt h
  have hdraw : drawSampleBatches S B batchAt = [] := by
    unfold drawSampleBatches
    rw [hdiv]
    rfl
  have hphase : pretrainSamplePhase S B batchAt =
      .error (.valueError "need at least one array to concatenate") := by
    unfold pretrainSamplePhase
    rw [hdraw]
    rfl
  refine ⟨hdiv, hdraw, hphase, ?_⟩
  unfold pretrainRun
  rw [hphase]
  rfl

theorem pretrain_sample_size_precondition_witness :
    1 / 2 = 0 ∧
    drawSampleBatches 1 2 (fun _ => []) = [] ∧
    pretrainSamplePhase 1 2 (fun _ => []) =
      .error (.valueError "need at least one array to concatenate") ∧
    pretrainRun 1 2 4 2 (fun _ => []) (fun _ => 0) =
      .error (.valueError "need at least one array to concatenate") :=
  pretrain_sample_size_precondition 1 2 4 2 (fun _ => []) (fun _ => 0) (by decide)

theorem varValue_minimizeStep (var_list : List String) (upd : String → ℚ → ℚ)
    (store : VarStore) (n : String) (hn : n ∉ var_list) :
    varValue n (minimizeStep var_list upd store) = varValue n store := by
  induction store with
  | nil => rfl
  | cons p t ih =>
    obtain ⟨a, b⟩ := p
    rw [show minimizeStep var_list upd ((a, b) :: t) =
      (if a ∈ var_list then (a, upd a b) else (a, b)) :: minimizeStep var_list upd t
      from rfl]
    by_cases ha : a ∈ var_list
    · have hne : n ≠ a := fun h => hn (h ▸ ha)
      rw [if_pos ha]
      show (if n = a then some (upd a b) else varValue n (minimizeStep var_list upd t)) = _
      rw [if_neg hne, ih]
      exact (if_neg hne).symm
    · rw [if_neg ha]
      show (if n = a then some b else varValue n (minimizeStep var_list upd t)) =
        (if n = a then some b else varValue n t)
      rw [ih]

/-- Claim C7: every training step of the pretraining loop is an application
of `train_op = opt.minimize(content_loss, var_list=g.to_save_vars)`, which
updates only the variables in the generator's savable list; after any
number of steps, every variable outside that list — in particular every
parameter of the frozen feature extractor — still has its original value. -/
theorem pretrain_train_op_frame :
    ∀ (g_to_save_vars : List String) (upd : Nat → String → ℚ → ℚ)
      (k : Nat) (store : VarStore) (n : String),
      n ∉ g_to_save_vars →
      varValue n (iterateTrainOp g_to_save_vars upd k store) = varValue n store := by
  intro vl upd k
  induction k with
  | zero => intro store n _; rfl
  | succ k ih =>
    intro store n hn
    show varValue n (iterateTrainOp vl upd k (minimizeStep vl (upd k) store)) = _
    rw [ih _ n hn, varValue_minimizeStep vl (upd k) store n hn]

theorem pretrain_train_op_frame_witness :
    varValue "vgg_conv1_kernel" (iterateTrainOp ["g_conv1_kernel"] (fun _ _ q => q + 1) 3
      [("g_conv1_kernel", 0), ("vgg_conv1_kernel", 5)]) =
    varValue "vgg_conv1_kernel" [("g_conv1_kernel", 0), ("vgg_conv1_kernel", 5)] :=
  pretrain_train_op_frame ["g_conv1_kernel"] (fun _ _ q => q + 1) 3
    [("g_conv1_kernel", 0), ("vgg_conv1_kernel", 5)] "vgg_conv1_kernel" (by decide)

end CartoonGan
